import Mathlib

/-!
Verification of the Parchemin select-picker widget (src/parchemin.js).

The development shallowly embeds the Scroll class's option-management,
search/filter, AJAX and message-configuration logic.  JS objects handed to
`getValueFromObject` are modelled as association lists of string keys to a
small universe of JS values; the DOM state a Scroll mutates (the underlying
select's options, the rendered list rows, the button text, the status line)
is modelled as an explicit record, and every method becomes a state
transformer on it.
-/

namespace Parchemin

/-- A JS value as it appears in option records: a string or a number. -/
inductive JsVal where
  | str : String → JsVal
  | num : Int → JsVal
deriving DecidableEq, Repr

/-- String coercion of a JS value, as the DOM performs when assigning
`option.value` / `textContent`. -/
def JsVal.toStr : JsVal → String
  | .str s => s
  | .num n => toString n

/-- A JS object restricted to the fields the code reads: an association list
from property names to values.  `val in obj` is membership of the key. -/
abbrev JsObj := List (String × JsVal)

/-- Source `getValueFromObject(obj, val, def)`: returns `obj[val]` when the
key `val` is present in `obj`, the default otherwise. -/
def getValueFromObject (obj : JsObj) (val : String) (dflt : JsVal) : JsVal :=
  match List.lookup val obj with
  | some v => v
  | none => dflt

/-- One `<option>` of the underlying select element.  `cls` is `className`;
`selected` is the DOM selected flag. -/
structure Opt where
  value : JsVal
  text : JsVal
  cls : JsVal
  selected : Bool
deriving DecidableEq, Repr

/-- Source `Scroll.addOptions` per-record processing: each raw record is
turned into an option via `getValueFromObject` with defaults `-1`,
`"Error"` and `""`; a freshly created option is not selected. -/
def mkOption (opt : JsObj) : Opt :=
  { value := getValueFromObject opt "value" (JsVal.num (-1))
    text := getValueFromObject opt "text" (JsVal.str "Error")
    cls := getValueFromObject opt "class" (JsVal.str "")
    selected := false }

/-- One rendered `<li>` row of the dropdown: the value encoded in its anchor
id, the displayed label, and whether `style.display` leaves it visible. -/
structure Item where
  value : JsVal
  text : JsVal
  visible : Bool
deriving DecidableEq, Repr

/-- The GUI message mapping (`lang`). -/
structure Lang where
  empty : String
  startSearch : String
  minLengthAlert : String
  searching : String
  noResults : String
  error : String
  result : String
  results : String
  searchPlaceholder : String
  moreResults : String
deriving DecidableEq, Repr

/-- The default French messages, as in `Parchemin.constructor` and in the
defaults of `Scroll.processLangParams`. -/
def defaultLang : Lang :=
  { empty := "Sélectionnez une valeur"
    startSearch := "Commencez à taper pour lancer la recherche..."
    minLengthAlert := "Veuillez taper au moins 4 caractères."
    searching := "Recherche..."
    noResults := "Aucun résultat trouvé."
    error := "Une erreur est survenue."
    result := "résultat trouvé."
    results := "résultats trouvés."
    searchPlaceholder := "Rechercher un événement OL..."
    moreResults := "en tout, affinez votre recherche" }

/-- A partial lang-override object: `none` models an absent key. -/
structure LangParams where
  empty : Option String := none
  startSearch : Option String := none
  minLengthAlert : Option String := none
  searching : Option String := none
  noResults : Option String := none
  error : Option String := none
  result : Option String := none
  results : Option String := none
  searchPlaceholder : Option String := none
  moreResults : Option String := none
deriving DecidableEq, Repr

/-- Source `Scroll.processLangParams`: the JS spread `{...defaults, ...params}`,
i.e. every key present in `params` wins, every absent key takes the
built-in default. -/
def processLangParams (params : LangParams) : Lang :=
  { empty := params.empty.getD defaultLang.empty
    startSearch := params.startSearch.getD defaultLang.startSearch
    minLengthAlert := params.minLengthAlert.getD defaultLang.minLengthAlert
    searching := params.searching.getD defaultLang.searching
    noResults := params.noResults.getD defaultLang.noResults
    error := params.error.getD defaultLang.error
    result := params.result.getD defaultLang.result
    results := params.results.getD defaultLang.results
    searchPlaceholder := params.searchPlaceholder.getD defaultLang.searchPlaceholder
    moreResults := params.moreResults.getD defaultLang.moreResults }

/-- The processed AJAX configuration stored in `this.ajax`. -/
structure AjaxParams where
  minLength : Nat
  maxResults : Nat
deriving DecidableEq, Repr

/-- A partial AJAX-params object as passed to `addAjax`; `none` models an
absent key (the request/processData fields are carried separately where
needed). -/
structure AjaxInput where
  minLength : Option Nat := none
  maxResults : Option Nat := none
deriving DecidableEq, Repr

/-- Source `Scroll.processAjaxParams`: `{...defaults, ...params}` with
defaults `minLength = 4`, `maxResults = 300`. -/
def processAjaxParams (params : AjaxInput) : AjaxParams :=
  { minLength := params.minLength.getD 4
    maxResults := params.maxResults.getD 300 }

/-- The mutable widget state of one Scroll: the select's native options, the
rendered rows, the button text, the status line text, the search-bar
placeholder, the message mapping, and the AJAX configuration (`none` models
`this.ajax === false`). -/
structure ScrollState where
  options : List Opt
  items : List Item
  buttonText : String
  status : String
  searchPlaceholder : String
  lang : Lang
  ajax : Option AjaxParams
  search : Bool
deriving DecidableEq, Repr

/-- Character-level substring test: does `sub` occur contiguously inside the
second list?  (The empty list occurs in everything.) -/
def hasSubstring (sub : List Char) : List Char → Bool
  | [] => sub.isEmpty
  | c :: t => sub.isPrefixOf (c :: t) || hasSubstring sub t

/-- JS `s.toLowerCase()`, modelled with per-character ASCII case folding. -/
def jsToLower (s : String) : String := String.mk (s.data.map Char.toLower)

/-- JS `s.trim()`: strips leading and trailing whitespace. -/
def jsTrim (s : String) : String :=
  String.mk (((s.data.dropWhile Char.isWhitespace).reverse.dropWhile
    Char.isWhitespace).reverse)

/-- JS `s.toLowerCase().trim()` as the listeners apply it to typed values
and row labels. -/
def normalizeStr (s : String) : String := jsTrim (jsToLower s)

/-- JS `s.includes(sub)`: substring containment (the empty string is
contained in everything). -/
def strIncludes (s sub : String) : Bool := hasSubstring sub.data s.data

/-- JS `str.substring(0, str.length - n)`: drops the last `n` characters. -/
def jsDropRight (s : String) (n : Nat) : String :=
  String.mk (s.data.take (s.data.length - n))

/-- Source `Scroll.wipeOptions`: removes every option of the select and
every `<li>` of the wrapper. -/
def wipeOptions (st : ScrollState) : ScrollState :=
  { st with options := [], items := [] }

/-- Rendering of one option as a dropdown row, as `getOptionsAsHTML` and
`addOptions` build it: the anchor id encodes the option's value and the
anchor text is the option's label; a fresh row is visible. -/
def renderItem (o : Opt) : Item :=
  { value := o.value, text := o.text, visible := true }

/-- Source `Scroll.addOptions`: for each raw record, appends the processed
option to the select and the corresponding rendered row to the list. -/
def addOptions (st : ScrollState) (arr : List JsObj) : ScrollState :=
  { st with
    options := st.options ++ arr.map mkOption
    items := st.items ++ (arr.map mkOption).map renderItem }

/-- The status string computed at the end of `Scroll.replaceChoices`,
reading `this.ajax.maxResults` for the more-results qualifier. -/
def replaceStatus (lang : Lang) (maxResults : Nat) (n : Nat) (totalLength : Nat) : String :=
  if n = 0 then lang.noResults
  else if n = 1 then toString n ++ " " ++ lang.result
  else toString n ++ " " ++ lang.results ++
    (if totalLength > maxResults then
      " (" ++ toString totalLength ++ " " ++ lang.moreResults ++ ")" else "")

/-- Source `Scroll.replaceChoices(data, totalLength)`: wipes the options,
adds the provided ones, then updates the status line.  `ajax` is the
`this.ajax` configuration read for `maxResults` (replaceChoices is only
reached with AJAX enabled). -/
def replaceChoices (st : ScrollState) (ajax : AjaxParams) (data : List JsObj)
    (totalLength : Nat) : ScrollState :=
  let st1 := addOptions (wipeOptions st) data
  { st1 with status := replaceStatus st.lang ajax.maxResults data.length totalLength }

/-- Source `Scroll.drawSelectedOptions`: the button shows `lang.empty` when
no option is selected, otherwise the labels of the selected options joined
by a comma (built with a trailing separator then truncated by two
characters, as in the source). -/
def drawSelectedOptions (st : ScrollState) : ScrollState :=
  let sel := st.options.filter (fun o => o.selected)
  let s :=
    if sel.length = 0 then st.lang.empty
    else jsDropRight (sel.foldl (fun acc op => acc ++ op.text.toStr ++ ", ") "") 2
  { st with buttonText := s }

/-- Source `Scroll.setLang`: replaces `this.lang` with the processed params,
unconditionally rewrites the button text to the new empty message, and, when
a search bar exists, resets the placeholder and the status line. -/
def setLang (st : ScrollState) (params : LangParams) : ScrollState :=
  let lang := processLangParams params
  let st1 := { st with lang := lang, buttonText := lang.empty }
  if st1.search then
    { st1 with searchPlaceholder := lang.searchPlaceholder, status := lang.startSearch }
  else st1

/-- Source `Scroll.addSearchListeners` input handler for one input event with
typed raw value `raw`: with AJAX enabled, a normalized value shorter than the
hard-coded 4 wipes the options and shows the min-length alert, otherwise the
searching message is shown; without AJAX, every row is shown or hidden by
substring containment of the normalized value in its normalized label. -/
def searchInput (st : ScrollState) (raw : String) : ScrollState :=
  let val := normalizeStr raw
  match st.ajax with
  | some _ =>
      if val.length < 4 then
        { wipeOptions st with status := st.lang.minLengthAlert }
      else { st with status := st.lang.searching }
  | none =>
      { st with
        items := st.items.map (fun li =>
          { li with visible := strIncludes (normalizeStr li.text.toStr) val }) }

/-- Combined effect of one settled keystroke with AJAX enabled: the immediate
search listener runs, and once the debounce timer fires undisturbed, the
`addAjax` handler issues a fetch payload exactly when the normalized value
reaches `this.ajax.minLength` (`none` means no network call). -/
def ajaxKeystroke (st : ScrollState) (raw : String) : ScrollState × Option String :=
  let st1 := searchInput st raw
  let val := normalizeStr raw
  match st.ajax with
  | some a => (st1, if val.length ≥ a.minLength then some val else none)
  | none => (st1, none)

/-- Source `Scroll.fetchData` response pipeline after transport and
`JSON.parse`, both of whose failures funnel into the single `catch`:
on success the parsed array is sliced with the hard-coded `slice(0, 300)`,
handed to the caller's `processData`, and the result replaces the choices
with the pre-truncation `parsed.length` as total; on failure only the
status line is set to the error message. -/
def fetchData (st : ScrollState) (ajax : AjaxParams)
    (processData : List JsObj → List JsObj)
    (response : Except Unit (List JsObj)) : ScrollState :=
  match response with
  | .error _ => { st with status := st.lang.error }
  | .ok parsed =>
      let processed := processData (parsed.take 300)
      replaceChoices st ajax processed parsed.length

/-- Widget construction (`Scroll.init`): the select's declared options are
read and the list markup is generated from them by `getOptionsAsHTML`, one
visible row per option; the button shows the empty message, no AJAX yet. -/
def construct (opts : List Opt) (lang : Lang) : ScrollState :=
  { options := opts
    items := opts.map renderItem
    buttonText := lang.empty
    status := lang.startSearch
    searchPlaceholder := lang.searchPlaceholder
    lang := lang
    ajax := none
    search := false }

/-- The operations that rebuild or touch the option set and the rendered
rows after construction. -/
inductive Op where
  | wipe : Op
  | add : List JsObj → Op
  | replace : AjaxParams → List JsObj → Nat → Op
  | input : String → Op
  | langOp : LangParams → Op
deriving Repr

/-- Interpretation of one operation on the widget state. -/
def applyOp (st : ScrollState) : Op → ScrollState
  | .wipe => wipeOptions st
  | .add arr => addOptions st arr
  | .replace ajax data total => replaceChoices st ajax data total
  | .input raw => searchInput st raw
  | .langOp p => setLang st p

/-- The two mirrors of `optionSet`: the select's options and the rendered
rows hold the same (value, label) sequence. -/
def synced (st : ScrollState) : Prop :=
  st.options.map (fun o => (o.value, o.text)) = st.items.map (fun li => (li.value, li.text))

/-- State of the `addAjax` debounce closure: the search bar's current
content, the single pending timer's absolute fire time (the closure holds at
most one timer id, each input event `clearTimeout`s it), and the fetch
payloads issued so far in order. -/
structure DebounceState where
  value : String
  pending : Option Nat
  calls : List String
deriving DecidableEq, Repr

/-- The debounce callback of `addAjax` firing: reads the search bar's
current value, normalizes it, and calls `fetchData` exactly when its length
reaches `minLength`; the timer is consumed. -/
def fireTimer (minLength : Nat) (d : DebounceState) : DebounceState :=
  let val := normalizeStr d.value
  { d with
    pending := none
    calls := d.calls ++ (if val.length ≥ minLength then [val] else []) }

/-- Passage of time up to instant `t`: a pending timer whose deadline has
been reached fires (reading the value as it stood before any event at `t`). -/
def elapse (minLength : Nat) (d : DebounceState) (t : Nat) : DebounceState :=
  match d.pending with
  | some deadline => if deadline ≤ t then fireTimer minLength d else d
  | none => d

/-- One input event at time `t` setting the search bar to `v`: time elapses
first, then the handler runs `clearTimeout(debounce)` and schedules a new
timer for `t + 1000` (the source's fixed debounce delay). -/
def keystroke (minLength : Nat) (d : DebounceState) (k : Nat × String) : DebounceState :=
  let d1 := elapse minLength d k.1
  { d1 with value := k.2, pending := some (k.1 + 1000) }

/-- A whole typing session: the keystrokes in chronological order, starting
from an empty search bar with no timer pending and no call issued. -/
def runKeystrokes (minLength : Nat) (ks : List (Nat × String)) : DebounceState :=
  ks.foldl (keystroke minLength) { value := "", pending := none, calls := [] }

/-- Quiescence after the last keystroke: enough time passes for any pending
timer to fire. -/
def settle (minLength : Nat) (d : DebounceState) : DebounceState :=
  match d.pending with
  | some _ => fireTimer minLength d
  | none => d

/-- A sample declared option used by concrete evaluations. -/
def sampleOpt : Opt :=
  { value := JsVal.str "1", text := JsVal.str "Alpha", cls := JsVal.str "", selected := false }

/-- A sample selected option used by concrete evaluations. -/
def sampleSelOpt : Opt :=
  { value := JsVal.str "1", text := JsVal.str "Alpha", cls := JsVal.str "", selected := true }

/-- Sample raw remote records. -/
def recA : JsObj := [("value", JsVal.num 1), ("text", JsVal.str "A")]

/-- Second sample raw remote record. -/
def recB : JsObj := [("value", JsVal.num 2), ("text", JsVal.str "B")]

/-- Third sample raw remote record. -/
def recC : JsObj := [("value", JsVal.num 3), ("text", JsVal.str "C")]

/-- A freshly constructed widget with no declared options. -/
def freshState : ScrollState := construct [] defaultLang

/-- Appending the empty string on the right is the identity. -/
lemma string_append_empty (s : String) : s ++ "" = s := by
  cases s with
  | mk data => show String.mk (data ++ []) = String.mk data; rw [List.append_nil]

/-- C10: `addOptions` record processing fills in `-1`, `"Error"` and `""`
for the absent `value`, `text` and `class` keys respectively, and uses a
present key's value unchanged. -/
theorem addOptions_field_defaults (obj : JsObj) :
    (List.lookup "value" obj = none → (mkOption obj).value = JsVal.num (-1)) ∧
    (∀ v, List.lookup "value" obj = some v → (mkOption obj).value = v) ∧
    (List.lookup "text" obj = none → (mkOption obj).text = JsVal.str "Error") ∧
    (∀ v, List.lookup "text" obj = some v → (mkOption obj).text = v) ∧
    (List.lookup "class" obj = none → (mkOption obj).cls = JsVal.str "") ∧
    (∀ v, List.lookup "class" obj = some v → (mkOption obj).cls = v) := by
  refine ⟨fun h => ?_, fun v h => ?_, fun h => ?_, fun v h => ?_, fun h => ?_, fun v h => ?_⟩ <;>
    simp [mkOption, getValueFromObject, h]

/-- Witness for `addOptions_field_defaults` on a record with only `text`. -/
theorem addOptions_field_defaults_witness :
    (mkOption [("text", JsVal.str "Hi")]).value = JsVal.num (-1) ∧
    (mkOption [("text", JsVal.str "Hi")]).text = JsVal.str "Hi" ∧
    (mkOption [("text", JsVal.str "Hi")]).cls = JsVal.str "" :=
  ⟨(addOptions_field_defaults [("text", JsVal.str "Hi")]).1 rfl,
   (addOptions_field_defaults [("text", JsVal.str "Hi")]).2.2.2.1 (JsVal.str "Hi") rfl,
   (addOptions_field_defaults [("text", JsVal.str "Hi")]).2.2.2.2.1 rfl⟩

/-- C5: a network or parse failure (the promise chain's `catch`) sets the
status line to the configured error message and changes nothing else: the
select's options, the rendered rows and all remaining widget state are
exactly as before the failed query. -/
theorem fetch_failure_preserves_state (st : ScrollState) (a : AjaxParams)
    (processData : List JsObj → List JsObj) :
    (fetchData st a processData (Except.error ())).options = st.options ∧
    (fetchData st a processData (Except.error ())).items = st.items ∧
    (fetchData st a processData (Except.error ())).status = st.lang.error ∧
    fetchData st a processData (Except.error ()) = { st with status := st.lang.error } :=
  ⟨rfl, rfl, rfl, rfl⟩

/-- C9 (amended): `setLang` rewrites the button text to the new lang's
empty-selection message unconditionally, whether or not options are
currently selected. -/
theorem setLang_button_unconditional (st : ScrollState) (p : LangParams) :
    (setLang st p).buttonText = (processLangParams p).empty := by
  by_cases h : st.search <;> simp [setLang, h]

/-- Counterexample for C9 as stated: a widget whose button shows the label
of its selected option (as `drawSelectedOptions` painted it); `setLang`
with an empty override object replaces that summary with the (default)
empty-selection message even though an option is selected. -/
def cexStateC9 : ScrollState :=
  drawSelectedOptions { construct [sampleSelOpt] defaultLang with search := true }

/-- C9 counterexample: the button showed "Alpha" for the selected option,
yet after `setLang` it shows the empty-selection message. -/
theorem setLang_button_overwrites_selection_cex :
    (cexStateC9.options.filter (fun o => o.selected)).length = 1 ∧
    cexStateC9.buttonText = "Alpha" ∧
    (setLang cexStateC9 {}).buttonText = defaultLang.empty ∧
    defaultLang.empty ≠ "Alpha" := by decide

/-- C4 (amended): `setLang` merges the overrides onto the built-in default
messages, not onto the current mapping: every key present in the overrides
takes the override, every omitted key reverts to the factory default
(independently of the widget's current lang). -/
theorem setLang_resets_to_defaults (st : ScrollState) (p : LangParams) :
    (setLang st p).lang =
      { empty := p.empty.getD defaultLang.empty
        startSearch := p.startSearch.getD defaultLang.startSearch
        minLengthAlert := p.minLengthAlert.getD defaultLang.minLengthAlert
        searching := p.searching.getD defaultLang.searching
        noResults := p.noResults.getD defaultLang.noResults
        error := p.error.getD defaultLang.error
        result := p.result.getD defaultLang.result
        results := p.results.getD defaultLang.results
        searchPlaceholder := p.searchPlaceholder.getD defaultLang.searchPlaceholder
        moreResults := p.moreResults.getD defaultLang.moreResults } := by
  by_cases h : st.search <;> simp [setLang, h, processLangParams]

/-- C4 counterexample: override `empty` to "A", then call `setLang` again
overriding only `error`; the claim says the earlier `empty` override is
retained, but the code reverts it to the factory default. -/
theorem setLang_shallow_merge_cex :
    (setLang freshState { empty := some "A" }).lang.empty = "A" ∧
    (setLang (setLang freshState { empty := some "A" }) { error := some "B" }).lang.empty
      = defaultLang.empty ∧
    defaultLang.empty ≠ "A" := by decide

/-- C1 (amended): with AJAX enabled, no network call is issued for a query
whose normalized length is below the configured `minLength`; but the
clearing of the option set, of the rendered list, and the min-length
message are governed by the hard-coded threshold 4 of the search listener,
not by `minLength` (the two coincide at the default `minLength = 4`). -/
theorem short_query_no_fetch_and_clear (st : ScrollState) (a : AjaxParams) (raw : String)
    (ha : st.ajax = some a) :
    ((normalizeStr raw).length < a.minLength → (ajaxKeystroke st raw).2 = none) ∧
    ((normalizeStr raw).length < 4 →
      (ajaxKeystroke st raw).1.options = [] ∧
      (ajaxKeystroke st raw).1.items = [] ∧
      (ajaxKeystroke st raw).1.status = st.lang.minLengthAlert) := by
  constructor
  · intro h
    simp only [ajaxKeystroke, ha]
    rw [if_neg (by omega)]
  · intro h
    simp only [ajaxKeystroke, searchInput, ha]
    rw [if_pos h]
    exact ⟨rfl, rfl, rfl⟩

/-- The widget used as the witness input for the short-query theorem: one
declared option, search bar on, AJAX with the default parameters. -/
def wStateC1 : ScrollState :=
  { construct [sampleOpt] defaultLang with
    search := true, ajax := some (processAjaxParams {}) }

/-- Witness for `short_query_no_fetch_and_clear` at the default `minLength`
of 4 and the two-character query "ab": no fetch, set cleared. -/
theorem short_query_no_fetch_and_clear_witness :
    (ajaxKeystroke wStateC1 "ab").2 = none ∧
    (ajaxKeystroke wStateC1 "ab").1.options = [] ∧
    (ajaxKeystroke wStateC1 "ab").1.status = wStateC1.lang.minLengthAlert :=
  ⟨(short_query_no_fetch_and_clear wStateC1 (processAjaxParams {}) "ab" rfl).1 (by decide),
   ((short_query_no_fetch_and_clear wStateC1 (processAjaxParams {}) "ab" rfl).2 (by decide)).1,
   ((short_query_no_fetch_and_clear wStateC1 (processAjaxParams {}) "ab" rfl).2 (by decide)).2.2⟩

/-- The widget used as the counterexample input for C1: one declared
option, AJAX configured with `minLength = 6`. -/
def cexStateC1 : ScrollState :=
  { construct [sampleOpt] defaultLang with
    search := true, ajax := some (processAjaxParams { minLength := some 6 }) }

/-- C1 counterexample: with `minLength = 6`, the five-character query
"abcde" is below the configured minimum, yet the option set is not
cleared and the status shows the searching message instead of the
min-length alert (only the no-fetch half of the claim holds): the wipe
path tests the hard-coded 4, not `ajax.minLength`. -/
theorem short_query_clear_hardcoded_cex :
    (normalizeStr "abcde").length < 6 ∧
    cexStateC1.ajax = some { minLength := 6, maxResults := 300 } ∧
    (ajaxKeystroke cexStateC1 "abcde").1.options ≠ [] ∧
    (ajaxKeystroke cexStateC1 "abcde").1.status ≠ cexStateC1.lang.minLengthAlert ∧
    (ajaxKeystroke cexStateC1 "abcde").1.status = cexStateC1.lang.searching ∧
    (ajaxKeystroke cexStateC1 "abcde").2 = none := by decide

/-- The widget used as the failing input for C2: AJAX configured with
`maxResults = 2`. -/
def cexStateC2 : ScrollState :=
  { construct [] defaultLang with
    search := true, ajax := some (processAjaxParams { maxResults := some 2 }) }

/-- C2 failing input: `maxResults = 2` with a three-record response.  The
source slices the parsed array with the hard-coded `slice(0, 300)` instead
of `maxResults`, so all three records are handed to `processData` (here the
identity) and the replaced option set has 3 > 2 entries, contradicting the
README's description of `maxResults`. -/
theorem maxResults_truncation_bug :
    cexStateC2.ajax = some { minLength := 4, maxResults := 2 } ∧
    (fetchData cexStateC2 (processAjaxParams { maxResults := some 2 })
        (fun l => l) (Except.ok [recA, recB, recC])).options.length = 3 ∧
    ¬ (3 ≤ 2) := by decide

/-- C3: the status line after `replaceChoices` with `n` processed records
and pre-truncation total `t`: the no-results message when `n = 0`, the
singular phrasing when `n = 1`, and the plural phrasing when `n > 1`, with
the qualifier naming `t` appended exactly when `t` exceeds the configured
`maxResults`. -/
theorem replace_choices_status_phrasing (st : ScrollState) (a : AjaxParams)
    (data : List JsObj) (total : Nat) :
    (data.length = 0 → (replaceChoices st a data total).status = st.lang.noResults) ∧
    (data.length = 1 →
      (replaceChoices st a data total).status = toString 1 ++ " " ++ st.lang.result) ∧
    (1 < data.length → total ≤ a.maxResults →
      (replaceChoices st a data total).status =
        toString data.length ++ " " ++ st.lang.results) ∧
    (1 < data.length → total > a.maxResults →
      (replaceChoices st a data total).status =
        toString data.length ++ " " ++ st.lang.results ++
          " (" ++ toString total ++ " " ++ st.lang.moreResults ++ ")") := by
  refine ⟨fun h0 => ?_, fun h1 => ?_, fun hn ht => ?_, fun hn ht => ?_⟩
  · simp [replaceChoices, replaceStatus, h0]
  · simp [replaceChoices, replaceStatus, h1]
  · have e0 : data.length ≠ 0 := by omega
    have e1 : data.length ≠ 1 := by omega
    have e2 : ¬ (total > a.maxResults) := by omega
    simp only [replaceChoices, replaceStatus, if_neg e0, if_neg e1, if_neg e2]
    exact string_append_empty _
  · have e0 : data.length ≠ 0 := by omega
    have e1 : data.length ≠ 1 := by omega
    simp only [replaceChoices, replaceStatus, if_neg e0, if_neg e1, if_pos ht]
    simp [String.append_assoc]

/-- Witness for `replace_choices_status_phrasing`: the three concrete
shapes (no results; one result; two results with a pre-truncation total of
five exceeding `maxResults = 3`). -/
theorem replace_choices_status_phrasing_witness :
    (replaceChoices freshState ⟨4, 3⟩ [] 0).status = freshState.lang.noResults ∧
    (replaceChoices freshState ⟨4, 3⟩ [recA] 1).status =
      toString 1 ++ " " ++ freshState.lang.result ∧
    (replaceChoices freshState ⟨4, 3⟩ [recA, recB] 2).status =
      toString 2 ++ " " ++ freshState.lang.results ∧
    (replaceChoices freshState ⟨4, 3⟩ [recA, recB] 5).status =
      toString 2 ++ " " ++ freshState.lang.results ++
        " (" ++ toString 5 ++ " " ++ freshState.lang.moreResults ++ ")" :=
  ⟨(replace_choices_status_phrasing freshState ⟨4, 3⟩ [] 0).1 rfl,
   (replace_choices_status_phrasing freshState ⟨4, 3⟩ [recA] 1).2.1 rfl,
   (replace_choices_status_phrasing freshState ⟨4, 3⟩ [recA, recB] 2).2.2.1
     (by decide) (by decide),
   (replace_choices_status_phrasing freshState ⟨4, 3⟩ [recA, recB] 5).2.2.2
     (by decide) (by decide)⟩

/-- Construction renders one row per declared option, so the two mirrors
start out synchronized. -/
lemma synced_construct (opts : List Opt) (lang : Lang) : synced (construct opts lang) := by
  simp [synced, construct, renderItem, List.map_map]

/-- Every operation preserves the synchronization of the select's options
with the rendered rows. -/
lemma synced_applyOp (st : ScrollState) (op : Op) (h : synced st) :
    synced (applyOp st op) := by
  cases op with
  | wipe => simp [applyOp, wipeOptions, synced]
  | add arr =>
      simp only [applyOp, addOptions, synced, List.map_append, List.map_map]
      rw [h]
      rfl
  | replace a data total =>
      simp only [applyOp, replaceChoices, addOptions, wipeOptions, synced,
        List.map_append, List.map_map, List.map_nil, List.nil_append]
      rfl
  | input raw =>
      cases hA : st.ajax with
      | some a =>
          by_cases hlen : (normalizeStr raw).length < 4
          · simp [applyOp, searchInput, hA, hlen, wipeOptions, synced]
          · simpa [applyOp, searchInput, hA, hlen, synced] using h
      | none =>
          simp only [applyOp, searchInput, hA, synced, List.map_map]
          exact h
  | langOp p =>
      by_cases hs : st.search <;>
        simpa [applyOp, setLang, hs, synced] using h

/-- Synchronization is preserved along any sequence of operations. -/
lemma synced_foldl (ops : List Op) : ∀ st : ScrollState, synced st →
    synced (ops.foldl applyOp st) := by
  induction ops with
  | nil => intro st h; exact h
  | cons op rest ih => intro st h; exact ih _ (synced_applyOp st op h)

/-- C6: after construction and any sequence of wipes, additions,
replacements, search inputs and lang changes, the select element's option
list and the rendered row sequence hold the same (value, label) pairs in
the same order — in particular the same cardinality. -/
theorem option_mirrors_synced (opts : List Opt) (lang : Lang) (ops : List Op) :
    synced (ops.foldl applyOp (construct opts lang)) :=
  synced_foldl ops _ (synced_construct opts lang)

/-- C8: with no AJAX configuration, a search input event only recomputes
each row's visibility from its label; running it twice with the same typed
value gives exactly the state of running it once, and the select's options
are never mutated. -/
theorem local_filter_idempotent (st : ScrollState) (raw : String)
    (h : st.ajax = none) :
    searchInput (searchInput st raw) raw = searchInput st raw ∧
    (searchInput st raw).options = st.options := by
  constructor
  · simp only [searchInput, h, List.map_map]
    congr 1
  · simp [searchInput, h]

/-- The widget used as the witness input for local-filter idempotence. -/
def wStateC8 : ScrollState := { construct [sampleOpt] defaultLang with search := true }

/-- Witness for `local_filter_idempotent` on a one-option widget and the
query "alp". -/
theorem local_filter_idempotent_witness :
    searchInput (searchInput wStateC8 "alp") "alp" = searchInput wStateC8 "alp" ∧
    (searchInput wStateC8 "alp").options = wStateC8.options :=
  local_filter_idempotent wStateC8 "alp" rfl

/-- Two consecutive keystrokes within the debounce interval: the successor
arrives before the pending deadline, so the timer is cancelled without
firing. -/
lemma keystroke_within_interval (m t : ℕ) (c : List String) (v : String) (k : ℕ × String)
    (hk : k.1 < t + 1000) :
    keystroke m ⟨v, some (t + 1000), c⟩ k = ⟨k.2, some (k.1 + 1000), c⟩ := by
  simp [keystroke, elapse, Nat.not_le.mpr hk]

/-- Along a burst whose keystrokes each arrive within the debounce interval
of their predecessor, no timer ever fires: the state tracks the latest
keystroke's value and deadline while the list of issued calls stays
untouched. -/
lemma debounce_chain_foldl (m : ℕ) (ks : List (ℕ × String)) :
    ∀ (t : ℕ) (c : List String) (v : String),
      List.Chain (fun a b => a.1 ≤ b.1 ∧ b.1 < a.1 + 1000) (t, v) ks →
      ks.foldl (keystroke m) ⟨v, some (t + 1000), c⟩ =
        ⟨(ks.getLastD (t, v)).2, some ((ks.getLastD (t, v)).1 + 1000), c⟩ := by
  induction ks with
  | nil => intro t c v _; rfl
  | cons k rest ih =>
      intro t c v hchain
      rw [List.chain_cons] at hchain
      obtain ⟨⟨_, h2⟩, hrest⟩ := hchain
      rw [List.foldl_cons, keystroke_within_interval m t c v k h2, List.getLastD_cons]
      have := ih k.1 c k.2 (by simpa using hrest)
      simpa using this

/-- C7 (amended): each input event cancels the prior pending timer (the
closure holds at most one), so a burst of keystrokes each arriving within
the debounce interval of its predecessor fires the timer exactly once,
after the last keystroke; that single expiry issues at most one network
call — exactly one, carrying the final normalized value, when that value's
length reaches `minLength`, and none otherwise. -/
theorem debounced_burst_call (m t1 : ℕ) (v1 : String) (rest : List (ℕ × String))
    (hchain : List.Chain (fun a b => a.1 ≤ b.1 ∧ b.1 < a.1 + 1000) (t1, v1) rest) :
    (settle m (runKeystrokes m ((t1, v1) :: rest))).calls =
      if (normalizeStr (rest.getLastD (t1, v1)).2).length ≥ m then
        [normalizeStr (rest.getLastD (t1, v1)).2]
      else [] := by
  unfold runKeystrokes
  rw [List.foldl_cons]
  have h0 : keystroke m ⟨"", none, []⟩ (t1, v1) = ⟨v1, some (t1 + 1000), []⟩ := rfl
  rw [h0, debounce_chain_foldl m rest t1 [] v1 hchain]
  simp [settle, fireTimer]

/-- Witness for `debounced_burst_call`: two keystrokes 500 ms apart, the
final value "Hello " normalizing to "hello" of length 5 ≥ 4: exactly one
call carrying "hello". -/
theorem debounced_burst_call_witness :
    (settle 4 (runKeystrokes 4 [(0, "ab"), (500, "Hello ")])).calls = ["hello"] :=
  (debounced_burst_call 4 0 "ab" [(500, "Hello ")]
    (List.Chain.cons (by decide) List.Chain.nil)).trans (by decide)

/-- C7 counterexample: a burst of two keystrokes 500 ms apart (within the
1000 ms debounce interval) whose final value "a" is below the default
`minLength` of 4 results in zero network calls, not exactly one. -/
theorem debounced_burst_exactly_one_cex :
    ((0 : ℕ) ≤ 500 ∧ (500 : ℕ) < 0 + 1000) ∧
    (settle 4 (runKeystrokes 4 [(0, "abcde"), (500, "a")])).calls = [] := by decide

end Parchemin
